import Mathlib

/-!
Shallow embedding of the erfclient token lifecycle manager (client.go).

The Go code keeps a `client` struct with a backing file path, a refresh
interval in seconds, an optional cached claims record, and the cached
serialized token bytes.  `Token()` lazily loads the file, checks expiry
against the clock and rotates (mints, writes, caches) when needed.

Modelling choices:
- The manager is bound to exactly one file, so the filesystem is modelled
  as the state of that single file (`FS`): its contents plus flags for the
  failure modes the Go code distinguishes (a non-NotExist stat error, a
  read error, a write error).
- The claims transport (erfcommon `ParseToken` / jwt encoding) and the
  uuid generator are external collaborators; they are parameters: an `Env`
  of encode/parse functions and a fresh-subject string argument.
- The Go clock is injected; each `Token` call is modelled with a single
  frozen `now` value (the code reads the clock once for the expiry check
  and once at mint time; with a frozen clock both reads agree, which is
  the setting of every clocked property in the spec).
- `Token` mutates its pointer receiver, so the model always returns the
  resulting client and file state alongside the `Except` result, even on
  error, exactly as the Go mutations leave them.
- A failed write is not atomic: ioutil.WriteFile opens with O_TRUNC, so
  by the time it fails the file may be untouched (failure at open),
  truncated, or partially written. The state the file is left in is
  injected (`FS.writeResidue`) rather than computed, and a failed
  `persistNewToken` reports it alongside the error.
- Machine integers (`int64`, `uint`) are modelled as `Int` and `Nat`;
  the values involved (unix seconds, small sequence numbers) never
  approach the overflow range in any property considered here.
-/

namespace Erfclient

/-- Serialized token bytes (Go `[]byte`). -/
abbrev Bytes := List Nat

/-- The erfcommon `ErfClaims` record: one epoch of the fingerprint chain.
The Go struct holds pointer fields; a successfully parsed or freshly
minted record has all fields set, which is what this structure captures. -/
structure ErfClaims where
  issuedAt : Int
  expiresAt : Int
  subject : String
  sequenceNo : Int
  previous : String
deriving DecidableEq, Repr

/-- Error kinds surfaced by the manager, one per distinct failure path in
client.go: stat failure other than not-found, read failure, parse failure
from erf.ParseToken, the token.Valid check failing, encoding failure in
persistNewToken, and the file write failing. -/
inductive Err where
  | statFail
  | readFail
  | parseFail
  | invalidToken
  | encodeFail
  | writeFail
deriving DecidableEq, Repr

/-- State of the single backing file: its contents (`none` = the file does
not exist) and the injected failure modes of the surrounding filesystem.
Note that an existing empty file is `some []`, distinct from `none`, just
as Go's ioutil.ReadFile returns a non-nil empty slice for an empty file. -/
structure FS where
  contents : Option Bytes
  statFail : Bool
  readFail : Bool
  writeFail : Bool
  /-- The contents the file is left holding when a write fails:
  ioutil.WriteFile may fail at open (file untouched), after its O_TRUNC
  truncation (empty), or mid-write (a prefix of the new bytes); which of
  these happens is decided by the environment, so the outcome is injected
  here, not computed. Only consulted when `writeFail` is true. -/
  writeResidue : Option Bytes
deriving DecidableEq, Repr

/-- The external claims transport: `encode` serializes a record (Go:
jwt.NewWithClaims(...).SignedString, which can fail), `parse` decodes and
validates bytes (Go: erf.ParseToken returning a token with a Valid flag
and the claims, or an error, modelled as `Option (Bool × ErfClaims)`). -/
structure Env where
  encode : ErfClaims → Option Bytes
  parse : Bytes → Option (Bool × ErfClaims)

/-- The in-memory manager state (Go `client`): refresh interval in
seconds (`uint`), the optional cached claims, and the cached token bytes
(`jwt`, initially nil, modelled as `[]`). The file path is implicit: the
manager is bound to the single file whose state is the `FS` argument. -/
structure Client where
  refresh : Nat
  claims : Option ErfClaims
  jwt : Bytes
deriving DecidableEq, Repr

/-- Go `readFile`: os.Stat the file; a not-found stat error yields
`ok none` (missing file is not an error), any other stat error is
returned; otherwise ioutil.ReadFile, whose failure is returned. -/
def readFile (fs : FS) : Except Err (Option Bytes) :=
  if fs.statFail then .error .statFail
  else match fs.contents with
    | none => .ok none
    | some bs => if fs.readFail then .error .readFail else .ok (some bs)

/-- Initial segment of Go `Token()` (lines 69-89): when no claims are
cached, read the backing file; if bytes were present, parse and validate
them and populate the cache (c.jwt, c.claims). On any failure the client
is left as it was (the Go code returns before assigning the fields). -/
def clientReadPhase (env : Env) (c : Client) (fs : FS) : Except Err Client :=
  match c.claims with
  | some _ => .ok c
  | none =>
    match readFile fs with
    | .error e => .error e
    | .ok none => .ok c
    | .ok (some bs) =>
      match env.parse bs with
      | none => .error .parseFail
      | some (valid, cl) =>
        if valid then .ok { c with jwt := bs, claims := some cl }
        else .error .invalidToken

/-- The staleness test of Go line 91:
`c.claims == nil || c.clock.Now().Unix() >= *c.claims.ExpiresAt`. -/
def needsRotation (claims : Option ErfClaims) (now : Int) : Bool :=
  match claims with
  | none => true
  | some cl => decide (cl.expiresAt ≤ now)

/-- The base record built at the top of Go `persistNewToken` (lines
122-128): issuedAt = now, expiresAt = now + refresh, a fresh subject,
sequenceNo = 0, previous = "". It is the minted record when no claims are
cached. `u` is the fresh uuid string for this mint. -/
def mintFirst (now : Int) (refresh : Nat) (u : String) : ErfClaims :=
  { issuedAt := now
    expiresAt := now + (refresh : Int)
    subject := u
    sequenceNo := 0
    previous := "" }

/-- The record minted when claims are cached (Go lines 130-133): the base
record with sequenceNo overridden to the cached sequenceNo + 1 and
previous overridden to the cached subject. -/
def mintNext (old : ErfClaims) (now : Int) (refresh : Nat) (u : String) :
    ErfClaims :=
  { mintFirst now refresh u with
      sequenceNo := old.sequenceNo + 1
      previous := old.subject }

/-- Go `persistNewToken`: mint the new record (first or chained according
to whether claims are cached), encode it and write the file; only after a
successful write are the in-memory cache fields updated. The error case
carries the file state the failure left behind: an encoding failure
happens before ioutil.WriteFile is reached (client.go:135-138), so the
file is untouched; a failed write leaves the file holding the injected
`writeResidue`, since ioutil.WriteFile opens with O_TRUNC and may
truncate or partially write the file before failing. -/
def persistNewToken (env : Env) (now : Int) (u : String) (c : Client)
    (fs : FS) : Except (Err × FS) (Client × FS) :=
  let newClaims : ErfClaims :=
    match c.claims with
    | none => mintFirst now c.refresh u
    | some old => mintNext old now c.refresh u
  match env.encode newClaims with
  | none => .error (.encodeFail, fs)
  | some bs =>
    if fs.writeFail then
      .error (.writeFail, { fs with contents := fs.writeResidue })
    else .ok ({ c with claims := some newClaims, jwt := bs },
              { fs with contents := some bs })

/-- Go `Token()`: lazy read phase, staleness check, rotation when needed,
then return the cached bytes. The resulting client and file state are
returned in every case, mirroring the Go pointer-receiver mutations: a
failed read phase leaves the client untouched, a failed rotation leaves
the client as the read phase left it. -/
def Token (env : Env) (now : Int) (u : String) (c : Client) (fs : FS) :
    Except Err Bytes × Client × FS :=
  match clientReadPhase env c fs with
  | .error e => (.error e, c, fs)
  | .ok c1 =>
    if needsRotation c1.claims now then
      match persistNewToken env now u c1 fs with
      | .error (e, fs2) => (.error e, c1, fs2)
      | .ok (c2, fs2) => (.ok c2.jwt, c2, fs2)
    else (.ok c1.jwt, c1, fs)

/-- Go `newWithClock`: build a fresh client (no cached claims, nil jwt)
and call `Token` once to establish the file; construction fails iff that
call fails. -/
def newWithClock (env : Env) (now : Int) (u : String) (refresh : Nat)
    (fs : FS) : Except Err (Client × FS) :=
  let c : Client := { refresh := refresh, claims := none, jwt := [] }
  match Token env now u c fs with
  | (.error e, _, _) => .error e
  | (.ok _, c1, fs1) => .ok (c1, fs1)

/-! Concrete fixtures for witnesses: a sample claims record, a toy codec
environment whose equations match the sample scenarios, and file states. -/

/-- Sample claims record: the first record minted at time 0 with a 100
second refresh interval and subject "a". -/
def wClaims : ErfClaims :=
  { issuedAt := 0, expiresAt := 100, subject := "a", sequenceNo := 0,
    previous := "" }

/-- Toy codec for concrete scenarios: every record encodes to the bytes
[7], and [7] parses back to the sample record `wClaims`; any other bytes
(including the empty file) fail to parse. -/
def wEnv : Env where
  encode := fun _ => some [7]
  parse := fun bs => if bs = [7] then some (true, wClaims) else none

/-- A healthy file state for a file that does not exist yet. -/
def fs0 : FS :=
  { contents := none, statFail := false, readFail := false,
    writeFail := false, writeResidue := none }

/-- A healthy file state holding the encoded sample record. -/
def fs7 : FS :=
  { contents := some [7], statFail := false, readFail := false,
    writeFail := false, writeResidue := none }

/-- C1: every rotation (a successful persistNewToken call) with a cached
claims record — regardless of how stale that record is, since no expiry
condition appears — mints a record whose sequenceNo is the cached
sequenceNo plus one and whose previous is the cached subject; with no
cached claims it mints the sequenceNo = 0, previous = "" record. -/
theorem rotation_chain_invariant (env : Env) (now : Int) (u : String)
    (c c2 : Client) (fs fs2 : FS)
    (h : persistNewToken env now u c fs = .ok (c2, fs2)) :
    (∀ old, c.claims = some old →
      c2.claims = some (mintNext old now c.refresh u) ∧
      (mintNext old now c.refresh u).sequenceNo = old.sequenceNo + 1 ∧
      (mintNext old now c.refresh u).previous = old.subject) ∧
    (c.claims = none →
      c2.claims = some (mintFirst now c.refresh u) ∧
      (mintFirst now c.refresh u).sequenceNo = 0 ∧
      (mintFirst now c.refresh u).previous = "") := by
  unfold persistNewToken at h
  constructor
  · intro old hold
    rw [hold] at h
    simp only [] at h
    cases henc : env.encode (mintNext old now c.refresh u) with
    | none => rw [henc] at h; exact absurd h (by simp)
    | some bs =>
      rw [henc] at h
      by_cases hw : fs.writeFail
      · simp [hw] at h
      · simp [hw] at h
        refine ⟨?_, rfl, rfl⟩
        · rw [← h.1]
  · intro hnone
    rw [hnone] at h
    simp only [] at h
    cases henc : env.encode (mintFirst now c.refresh u) with
    | none => rw [henc] at h; exact absurd h (by simp)
    | some bs =>
      rw [henc] at h
      by_cases hw : fs.writeFail
      · simp [hw] at h
      · simp [hw] at h
        refine ⟨?_, rfl, rfl⟩
        · rw [← h.1]

/-- Witness for C1 at a concrete input: rotating off the sample record at
time 200 yields sequenceNo 1 and previous "a"; a fresh mint yields
sequenceNo 0 and previous "". -/
theorem rotation_chain_invariant_witness :
    ((mintNext wClaims 200 100 "b").sequenceNo = wClaims.sequenceNo + 1 ∧
     (mintNext wClaims 200 100 "b").previous = wClaims.subject) ∧
    ((mintFirst 0 100 "a").sequenceNo = 0 ∧
     (mintFirst 0 100 "a").previous = "") := by
  constructor
  · exact ((rotation_chain_invariant wEnv 200 "b"
      { refresh := 100, claims := some wClaims, jwt := [7] }
      { refresh := 100, claims := some (mintNext wClaims 200 100 "b"),
        jwt := [7] }
      fs7 fs7 rfl).1 wClaims rfl).2
  · exact ((rotation_chain_invariant wEnv 0 "a"
      { refresh := 100, claims := none, jwt := [] }
      { refresh := 100, claims := some (mintFirst 0 100 "a"), jwt := [7] }
      fs0 fs7 rfl).2 rfl).2

/-- C2: with a claims record cached, Token rotates iff now >= expiresAt
(inclusive boundary): strictly before expiry the call returns the cached
bytes and leaves client and file untouched; at or after expiry it mints
the chained successor, writes it, and caches it. -/
theorem token_expiry_boundary (env : Env) (now : Int) (u : String)
    (c : Client) (fs : FS) (cl : ErfClaims) (bs : Bytes)
    (hc : c.claims = some cl)
    (henc : env.encode (mintNext cl now c.refresh u) = some bs)
    (hw : fs.writeFail = false) :
    (now < cl.expiresAt → Token env now u c fs = (.ok c.jwt, c, fs)) ∧
    (cl.expiresAt ≤ now →
      Token env now u c fs =
        (.ok bs,
         { c with claims := some (mintNext cl now c.refresh u), jwt := bs },
         { fs with contents := some bs })) := by
  constructor
  · intro hlt
    have hnr : needsRotation (some cl) now = false := by
      simp [needsRotation]; omega
    simp [Token, clientReadPhase, hc, hnr]
  · intro hge
    have hnr : needsRotation (some cl) now = true := by
      simp [needsRotation, hge]
    simp [Token, clientReadPhase, hc, hnr, persistNewToken, henc, hw]

/-- Witness for C2 at the boundary of the spec scenario: the sample
record expires at 100; at clock 99 no rotation occurs, at clock 100 the
chained successor is minted. -/
theorem token_expiry_boundary_witness :
    Token wEnv 99 "b" { refresh := 100, claims := some wClaims, jwt := [7] }
        fs7 =
      (.ok [7], { refresh := 100, claims := some wClaims, jwt := [7] },
       fs7) ∧
    Token wEnv 100 "b" { refresh := 100, claims := some wClaims, jwt := [7] }
        fs7 =
      (.ok [7],
       { refresh := 100, claims := some (mintNext wClaims 100 100 "b"),
         jwt := [7] },
       { fs7 with contents := some [7] }) := by
  constructor
  · exact (token_expiry_boundary wEnv 99 "b"
      { refresh := 100, claims := some wClaims, jwt := [7] } fs7 wClaims [7]
      rfl rfl rfl).1 (by decide)
  · exact (token_expiry_boundary wEnv 100 "b"
      { refresh := 100, claims := some wClaims, jwt := [7] } fs7 wClaims [7]
      rfl rfl rfl).2 (by decide)

/-- C3: for every refresh interval r > 0 and clock time now, constructing
a fresh manager against a healthy nonexistent file mints a first record
with issuedAt = now, expiresAt - issuedAt = r, sequenceNo = 0 and
previous = "". -/
theorem first_mint_fresh_manager (env : Env) (now : Int) (u : String)
    (r : Nat) (fs : FS) (bs : Bytes) (hr : 0 < r)
    (hcont : fs.contents = none) (hstat : fs.statFail = false)
    (hw : fs.writeFail = false)
    (henc : env.encode (mintFirst now r u) = some bs) :
    newWithClock env now u r fs =
      .ok ({ refresh := r, claims := some (mintFirst now r u), jwt := bs },
           { fs with contents := some bs }) ∧
    (mintFirst now r u).issuedAt = now ∧
    (mintFirst now r u).expiresAt - (mintFirst now r u).issuedAt = (r : Int) ∧
    (mintFirst now r u).sequenceNo = 0 ∧
    (mintFirst now r u).previous = "" := by
  refine ⟨?_, rfl, by simp [mintFirst], rfl, rfl⟩
  simp [newWithClock, Token, clientReadPhase, readFile, hcont, hstat,
    needsRotation, persistNewToken, henc, hw]

/-- Witness for C3 at a concrete input: refresh 100, clock 0. -/
theorem first_mint_fresh_manager_witness :
    newWithClock wEnv 0 "a" 100 fs0 =
      .ok ({ refresh := 100, claims := some (mintFirst 0 100 "a"),
             jwt := [7] },
           { fs0 with contents := some [7] }) ∧
    (mintFirst 0 100 "a").issuedAt = 0 ∧
    (mintFirst 0 100 "a").expiresAt - (mintFirst 0 100 "a").issuedAt =
      (100 : Int) ∧
    (mintFirst 0 100 "a").sequenceNo = 0 ∧
    (mintFirst 0 100 "a").previous = "" :=
  first_mint_fresh_manager wEnv 0 "a" 100 fs0 [7] (by decide) rfl rfl rfl
    rfl

/-- C4: while the clock has not reached the cached record's expiry, every
Token call returns the cached bytes and changes nothing, so two
successive calls (each before expiry, possibly at different times and
with different fresh uuids on offer) return byte-identical output. -/
theorem token_idempotent_before_expiry (env : Env) (now1 now2 : Int)
    (u1 u2 : String) (c : Client) (fs : FS) (cl : ErfClaims)
    (hc : c.claims = some cl)
    (h1 : now1 < cl.expiresAt) (h2 : now2 < cl.expiresAt) :
    Token env now1 u1 c fs = (.ok c.jwt, c, fs) ∧
    Token env now2 u2 c fs = (.ok c.jwt, c, fs) := by
  have key : ∀ now, now < cl.expiresAt → ∀ u,
      Token env now u c fs = (.ok c.jwt, c, fs) := by
    intro now hlt u
    have hnr : needsRotation (some cl) now = false := by
      simp [needsRotation]; omega
    simp [Token, clientReadPhase, hc, hnr]
  exact ⟨key now1 h1 u1, key now2 h2 u2⟩

/-- Witness for C4: two calls at clocks 10 and 99 against the sample
record (expiry 100) both return the cached bytes unchanged. -/
theorem token_idempotent_before_expiry_witness :
    Token wEnv 10 "x" { refresh := 100, claims := some wClaims, jwt := [7] }
        fs7 =
      (.ok [7], { refresh := 100, claims := some wClaims, jwt := [7] },
       fs7) ∧
    Token wEnv 99 "y" { refresh := 100, claims := some wClaims, jwt := [7] }
        fs7 =
      (.ok [7], { refresh := 100, claims := some wClaims, jwt := [7] },
       fs7) :=
  token_idempotent_before_expiry wEnv 10 99 "x" "y"
    { refresh := 100, claims := some wClaims, jwt := [7] } fs7 wClaims rfl
    (by decide) (by decide)

/-- C5: after a first manager is constructed against a healthy missing
file (minting and persisting the first record), constructing a second
manager against the resulting file with a clock still before the record's
expiry yields the same claims record and the same bytes, and leaves the
file untouched — no rotation merely from reopening. The codec is assumed
to round-trip on the minted record. -/
theorem persistence_roundtrip (env : Env) (now now2 : Int) (u u2 : String)
    (r : Nat) (fs : FS) (bs : Bytes)
    (hcont : fs.contents = none) (hstat : fs.statFail = false)
    (hread : fs.readFail = false) (hw : fs.writeFail = false)
    (henc : env.encode (mintFirst now r u) = some bs)
    (hparse : env.parse bs = some (true, mintFirst now r u))
    (hfresh : now2 < (mintFirst now r u).expiresAt) :
    newWithClock env now u r fs =
      .ok ({ refresh := r, claims := some (mintFirst now r u), jwt := bs },
           { fs with contents := some bs }) ∧
    newWithClock env now2 u2 r { fs with contents := some bs } =
      .ok ({ refresh := r, claims := some (mintFirst now r u), jwt := bs },
           { fs with contents := some bs }) := by
  constructor
  · simp [newWithClock, Token, clientReadPhase, readFile, hcont, hstat,
      needsRotation, persistNewToken, henc, hw]
  · have hnr : needsRotation (some (mintFirst now r u)) now2 = false := by
      simp [needsRotation]; omega
    simp [newWithClock, Token, clientReadPhase, readFile, hstat, hread,
      hparse, hnr]

/-- Witness for C5: mint at clock 0 with refresh 100, reopen at clock
50. -/
theorem persistence_roundtrip_witness :
    newWithClock wEnv 0 "a" 100 fs0 =
      .ok ({ refresh := 100, claims := some (mintFirst 0 100 "a"),
             jwt := [7] },
           { fs0 with contents := some [7] }) ∧
    newWithClock wEnv 50 "z" 100 { fs0 with contents := some [7] } =
      .ok ({ refresh := 100, claims := some (mintFirst 0 100 "a"),
             jwt := [7] },
           { fs0 with contents := some [7] }) :=
  persistence_roundtrip wEnv 0 50 "a" "z" 100 fs0 [7] rfl rfl rfl rfl rfl
    rfl (by decide)

/-- C6: when the file exists and is readable but its bytes fail to parse,
or parse to an invalid token, a Token call on a manager with no cached
claims returns an error, leaves the manager and the file untouched (no
fresh record is silently minted), and construction against that file
fails with the same error. -/
theorem corrupt_file_fatal (env : Env) (now : Int) (u : String) (r : Nat)
    (fs : FS) (bs : Bytes)
    (hcont : fs.contents = some bs) (hstat : fs.statFail = false)
    (hread : fs.readFail = false)
    (hbad : env.parse bs = none ∨ ∃ cl, env.parse bs = some (false, cl)) :
    ∃ e, Token env now u { refresh := r, claims := none, jwt := [] } fs =
        (.error e, { refresh := r, claims := none, jwt := [] }, fs) ∧
      newWithClock env now u r fs = .error e := by
  rcases hbad with hbad | ⟨cl, hbad⟩
  · exact ⟨.parseFail, by
      simp [Token, clientReadPhase, readFile, hcont, hstat, hread, hbad],
      by simp [newWithClock, Token, clientReadPhase, readFile, hcont,
        hstat, hread, hbad]⟩
  · exact ⟨.invalidToken, by
      simp [Token, clientReadPhase, readFile, hcont, hstat, hread, hbad],
      by simp [newWithClock, Token, clientReadPhase, readFile, hcont,
        hstat, hread, hbad]⟩

/-- Witness for C6: the bytes [9] do not parse under the sample codec, so
both the Token call and construction fail and the file is untouched. -/
theorem corrupt_file_fatal_witness :
    ∃ e, Token wEnv 0 "a" { refresh := 100, claims := none, jwt := [] }
        { contents := some [9], statFail := false, readFail := false,
          writeFail := false, writeResidue := none } =
        (.error e, { refresh := 100, claims := none, jwt := [] },
         { contents := some [9], statFail := false, readFail := false,
           writeFail := false, writeResidue := none }) ∧
      newWithClock wEnv 0 "a" 100
        { contents := some [9], statFail := false, readFail := false,
          writeFail := false, writeResidue := none } = .error e :=
  corrupt_file_fatal wEnv 0 "a" 100
    { contents := some [9], statFail := false, readFail := false,
      writeFail := false, writeResidue := none } [9] rfl rfl rfl (Or.inl rfl)

/-- C7: against a healthy path with no file, a Token call on a fresh
manager succeeds, mints the first record, and creates the file with the
encoded bytes. -/
theorem missing_file_first_run (env : Env) (now : Int) (u : String)
    (r : Nat) (fs : FS) (bs : Bytes)
    (hcont : fs.contents = none) (hstat : fs.statFail = false)
    (hw : fs.writeFail = false)
    (henc : env.encode (mintFirst now r u) = some bs) :
    Token env now u { refresh := r, claims := none, jwt := [] } fs =
      (.ok bs,
       { refresh := r, claims := some (mintFirst now r u), jwt := bs },
       { fs with contents := some bs }) := by
  simp [Token, clientReadPhase, readFile, hcont, hstat, needsRotation,
    persistNewToken, henc, hw]

/-- Witness for C7: requesting a token against the healthy missing-file
state succeeds and creates the file. -/
theorem missing_file_first_run_witness :
    Token wEnv 0 "a" { refresh := 100, claims := none, jwt := [] } fs0 =
      (.ok [7],
       { refresh := 100, claims := some (mintFirst 0 100 "a"), jwt := [7] },
       { fs0 with contents := some [7] }) :=
  missing_file_first_run wEnv 0 "a" 100 fs0 [7] rfl rfl rfl rfl

/-- Counterexample to C8 as stated: a manager with no cached claims,
whose file holds a valid but expired record and whose writes fail. The
Token call at clock 200 (the sample record expires at 100) fails at the
write, yet the in-memory cache is NOT exactly as before the call: the
read phase populated it from the file (claims from none to the file's
record, jwt from nil to the file's bytes) before the rotation failed. -/
theorem token_failed_rotation_mutates_cache :
    Token wEnv 200 "b" { refresh := 100, claims := none, jwt := [] }
        { contents := some [7], statFail := false, readFail := false,
          writeFail := true, writeResidue := some [7] } =
      (.error .writeFail,
       { refresh := 100, claims := some wClaims, jwt := [7] },
       { contents := some [7], statFail := false, readFail := false,
         writeFail := true, writeResidue := some [7] }) ∧
    ({ refresh := 100, claims := some wClaims, jwt := [7] } : Client) ≠
      { refresh := 100, claims := none, jwt := [] } :=
  ⟨rfl, by decide⟩

/-- C8 amended: for every manager whose claims are already cached in
memory when the call begins, if the rotation step fails (encoding failure
or file write failure) Token returns an error and leaves the in-memory
cached claims and cached bytes exactly as they were before the call — so
a retry re-attempts the same rotation without double-incrementing the
sequence. (When the cache was instead populated from the file during the
same call, that population persists, but the retry still re-attempts the
same rotation. Nothing is claimed about the on-disk file state after a
failed write.) -/
theorem failed_rotation_preserves_cache (env : Env) (now : Int)
    (u : String) (c : Client) (fs : FS) (cl : ErfClaims)
    (hc : c.claims = some cl) (hstale : cl.expiresAt ≤ now)
    (hfail : env.encode (mintNext cl now c.refresh u) = none ∨
      fs.writeFail = true) :
    ∃ e, (Token env now u c fs).1 = .error e ∧
      (Token env now u c fs).2.1 = c := by
  have hnr : needsRotation (some cl) now = true := by
    simp [needsRotation, hstale]
  rcases hfail with hfail | hfail
  · refine ⟨.encodeFail, ?_, ?_⟩ <;>
      simp [Token, clientReadPhase, hc, hnr, persistNewToken, hfail]
  · cases henc : env.encode (mintNext cl now c.refresh u) with
    | none =>
      refine ⟨.encodeFail, ?_, ?_⟩ <;>
        simp [Token, clientReadPhase, hc, hnr, persistNewToken, henc]
    | some bs =>
      refine ⟨.writeFail, ?_, ?_⟩ <;>
        simp [Token, clientReadPhase, hc, hnr, persistNewToken, henc,
          hfail]

/-- Witness for the amended C8: with the sample record cached and a write
that fails leaving the file truncated, the Token call at clock 200 errors
and the in-memory cached claims and bytes are exactly unchanged. -/
theorem failed_rotation_preserves_cache_witness :
    ∃ e, (Token wEnv 200 "b"
        { refresh := 100, claims := some wClaims, jwt := [7] }
        { contents := some [7], statFail := false, readFail := false,
          writeFail := true, writeResidue := some [] }).1 = .error e ∧
      (Token wEnv 200 "b"
        { refresh := 100, claims := some wClaims, jwt := [7] }
        { contents := some [7], statFail := false, readFail := false,
          writeFail := true, writeResidue := some [] }).2.1 =
      { refresh := 100, claims := some wClaims, jwt := [7] } :=
  failed_rotation_preserves_cache wEnv 200 "b"
    { refresh := 100, claims := some wClaims, jwt := [7] }
    { contents := some [7], statFail := false, readFail := false,
      writeFail := true, writeResidue := some [] } wClaims rfl (by decide)
    (Or.inr rfl)

/-- Counterexample to C9 as stated: `New` accepts a refresh interval of
0 (a Go `uint`), and a mint performed with refresh = 0 produces a record
whose expiresAt equals its issuedAt, so expiresAt is not strictly greater
than issuedAt for every minted record. -/
theorem mint_zero_refresh_not_strict :
    persistNewToken wEnv 0 "a" { refresh := 0, claims := none, jwt := [] }
        fs0 =
      .ok ({ refresh := 0, claims := some (mintFirst 0 0 "a"), jwt := [7] },
           { contents := some [7], statFail := false, readFail := false,
             writeFail := false, writeResidue := none }) ∧
    ¬ (mintFirst 0 0 "a").issuedAt < (mintFirst 0 0 "a").expiresAt :=
  ⟨rfl, by decide⟩

/-- C9 amended: for every manager with a positive refresh interval, every
record minted by persistNewToken has issuedAt = now, expiresAt = now +
refresh, and expiresAt strictly greater than issuedAt. -/
theorem mint_positive_refresh_strict (env : Env) (now : Int) (u : String)
    (c c2 : Client) (fs fs2 : FS) (hr : 0 < c.refresh)
    (h : persistNewToken env now u c fs = .ok (c2, fs2)) :
    ∃ cl, c2.claims = some cl ∧ cl.issuedAt = now ∧
      cl.expiresAt = now + (c.refresh : Int) ∧
      cl.issuedAt < cl.expiresAt := by
  unfold persistNewToken at h
  cases hcl : c.claims with
  | none =>
    rw [hcl] at h
    simp only [] at h
    cases henc : env.encode (mintFirst now c.refresh u) with
    | none => rw [henc] at h; exact absurd h (by simp)
    | some bs =>
      rw [henc] at h
      by_cases hw : fs.writeFail
      · simp [hw] at h
      · simp [hw] at h
        refine ⟨mintFirst now c.refresh u, ?_, rfl, rfl, ?_⟩
        · rw [← h.1]
        · simp [mintFirst]; omega
  | some old =>
    rw [hcl] at h
    simp only [] at h
    cases henc : env.encode (mintNext old now c.refresh u) with
    | none => rw [henc] at h; exact absurd h (by simp)
    | some bs =>
      rw [henc] at h
      by_cases hw : fs.writeFail
      · simp [hw] at h
      · simp [hw] at h
        refine ⟨mintNext old now c.refresh u, ?_, rfl, rfl, ?_⟩
        · rw [← h.1]
        · simp [mintNext, mintFirst]; omega

/-- Witness for the amended C9: a mint with refresh 100 at clock 0
satisfies the strict expiry bound. -/
theorem mint_positive_refresh_strict_witness :
    ∃ cl, ({ refresh := 100, claims := some (mintFirst 0 100 "a"),
             jwt := [7] } : Client).claims = some cl ∧
      cl.issuedAt = 0 ∧ cl.expiresAt = 0 + ((100 : Nat) : Int) ∧
      cl.issuedAt < cl.expiresAt :=
  mint_positive_refresh_strict wEnv 0 "a"
    { refresh := 100, claims := none, jwt := [] }
    { refresh := 100, claims := some (mintFirst 0 100 "a"), jwt := [7] }
    fs0
    { contents := some [7], statFail := false, readFail := false,
      writeFail := false, writeResidue := none } (by decide) rfl

/-- C10: an existing zero-byte file is not treated like a missing file:
since ioutil.ReadFile returns a non-nil empty slice for it, the Token
call takes the parse path, fails with a parse error, and does not mint a
new record (the file and the manager are untouched). The external codec
is assumed to reject the empty byte string, as any JWT parse does. -/
theorem empty_file_is_parse_error (env : Env) (now : Int) (u : String)
    (r : Nat) (fs : FS)
    (hcont : fs.contents = some ([] : Bytes)) (hstat : fs.statFail = false)
    (hread : fs.readFail = false)
    (hparse : env.parse ([] : Bytes) = none) :
    Token env now u { refresh := r, claims := none, jwt := [] } fs =
      (.error .parseFail, { refresh := r, claims := none, jwt := [] },
       fs) := by
  simp [Token, clientReadPhase, readFile, hcont, hstat, hread, hparse]

/-- Witness for C10: the sample codec rejects the empty byte string, so a
fresh manager against an existing empty file fails with a parse error and
the file stays empty. -/
theorem empty_file_is_parse_error_witness :
    Token wEnv 0 "a" { refresh := 100, claims := none, jwt := [] }
        { contents := some [], statFail := false, readFail := false,
          writeFail := false, writeResidue := none } =
      (.error .parseFail, { refresh := 100, claims := none, jwt := [] },
       { contents := some [], statFail := false, readFail := false,
         writeFail := false, writeResidue := none }) :=
  empty_file_is_parse_error wEnv 0 "a" 100
    { contents := some [], statFail := false, readFail := false,
      writeFail := false, writeResidue := none } rfl rfl rfl rfl

end Erfclient
